import Mathlib

/-!
# Verification of the 6C-MUSIC repository against its specification

The repository ships two notebook drivers (`01isolated_Pwave.ipynb`,
`02interfering_Pwaves.ipynb`) that prepare synthetic six-component data,
call the MUSIC grid-search engine `music6C`, and post-process its 4-D
likelihood volume.  The engine modules themselves (`music6C`, `polvect6C`,
`ricker`, `awgn`) are not part of the source tree; where a claim depends on
them, the corresponding definition is modelled from the specification and
marked as such in its doc comment.  Everything taken from the notebooks
(driver constants, the cleanup step `np.nan_to_num` + `L_[L_ == 0.] = 1.`,
the flattened argmax extraction, the unit-normalization line
`v / np.sqrt(sum(v**2))`, and the convolution loop bound
`range(0, data[0,:].size - 1)`) is embedded directly from that code.
-/

/-! ## Floating values of the likelihood volume

Entries of the raw likelihood volume can be finite, NaN or infinite
(division by near-zero).  `FVal` distinguishes these cases; finite values
are carried exactly as rationals. -/

inductive FVal : Type where
  | fin (q : ℚ) : FVal
  | nan : FVal
  | pinf : FVal
  | ninf : FVal
deriving DecidableEq, Repr

/-- The largest finite IEEE-754 double, `(2^53 - 1) * 2^971`, exactly. -/
def maxFloat : ℚ := (2 ^ 53 - 1) * 2 ^ 971

/-- `np.nan_to_num` with default arguments: NaN becomes `0`, `+inf` becomes
the largest finite double, `-inf` its negation, finite values pass through. -/
def nanToNum : FVal → ℚ
  | .fin q => q
  | .nan => 0
  | .pinf => maxFloat
  | .ninf => -maxFloat

/-- One entry of the drivers' cleanup step (`L_ = np.nan_to_num(L)` followed
by `L_[L_ == 0.] = 1.`): apply `nanToNum`, then replace a zero by `1`. -/
def cleanVal (x : FVal) : ℚ :=
  if nanToNum x = 0 then 1 else nanToNum x

/-- The drivers' cleanup applied to the (flattened) likelihood volume. -/
def cleanup (L : List FVal) : List ℚ :=
  L.map cleanVal

/-! ## Caller-side argmax extraction (notebook cell under `remove instabilities`)

The drivers compute `maxval = np.max(abs(L_[:]))` and
`maxidx = np.argmax(abs(L_[:]))` on the flattened cleaned volume;
`np.argmax` returns the first flat index attaining the maximum. -/

/-- Maximum of a list of rationals, `np.max` on a flattened array
(the drivers only apply it to nonempty volumes; `[]` yields `0`). -/
def listMax : List ℚ → ℚ
  | [] => 0
  | x :: xs => xs.foldl max x

/-- `maxval`: maximum of the absolute values of the cleaned volume. -/
def driverMaxval (L : List FVal) : ℚ :=
  listMax ((cleanup L).map abs)

/-- `maxidx`: first flat index attaining the maximum of the absolute values
of the cleaned volume (`np.argmax(abs(L_[:]))`). -/
def driverArgmaxFlat (L : List FVal) : ℕ :=
  ((cleanup L).map abs).indexOf (driverMaxval L)

/-- Modelled from the spec: the convenience return described in §6,
`the flattened global argmax indices and value` of the raw 4-D output —
the first flat index attaining the maximal raw (finite) entry of the
volume `as returned`, before any caller-side cleanup. -/
def specConvenienceArgmax (L : List FVal) : ℕ :=
  ((L.map nanToNum).map abs).indexOf (listMax ((L.map nanToNum).map abs))

/-! ## Unit normalization (notebook line `v = v / np.sqrt(sum(v**2))`) -/

/-- The drivers' conversion of a raw six-component polarization vector to a
unit vector: divide every component by the Euclidean norm. -/
noncomputable def unit6 (v : Fin 6 → ℝ) : Fin 6 → ℝ :=
  fun i => v i / Real.sqrt (∑ j, v j ^ 2)

/-! ## Driver constants (notebook cells `MUSIC parameters` / `wave parameters`)

Each driver binds one variable `v_scal` and passes that same variable both
to `polvect6C` (data preparation) and to `music6C` (the search). -/

namespace Driver1

/-- `vs = 170.` in `01isolated_Pwave.ipynb`. -/
def vs : ℚ := 170

/-- `v_scal = 2 * vs` in `01isolated_Pwave.ipynb`. -/
def v_scal : ℚ := 2 * vs

/-- The scaling velocity passed to `polvect6C(param, v_scal, 'P')`. -/
def polvectScalingArg : ℚ := v_scal

/-- The scaling velocity passed to `music6C(data, test_param, 'P', v_scal, …)`. -/
def musicScalingArg : ℚ := v_scal

end Driver1

namespace Driver2

/-- `vs = 170.` in `02interfering_Pwaves.ipynb`. -/
def vs : ℚ := 170

/-- `v_scal = 1.2 * vs` in `02interfering_Pwaves.ipynb`. -/
def v_scal : ℚ := (12 / 10) * vs

/-- The scaling velocity passed to `polvect6C(param, v_scal, 'P')` and
`polvect6C(param2, v_scal, 'P')`. -/
def polvectScalingArg : ℚ := v_scal

/-- The scaling velocity passed to `music6C(data, test_param, 'P', v_scal, …)`. -/
def musicScalingArg : ℚ := v_scal

end Driver2

/-! ## The MUSIC engine, modelled from the spec

The modules `music6C.py` and `polvect6C.py` are not in the source tree;
only the notebook call sites are.  The definitions below are therefore
modelled from the specification (§4.1–§4.4): a coherency estimator with an
`InvalidWindow` bound check, a noise-subspace projector step, and the
nested grid iteration (outer θ, then φ, then α, then β) scoring each node
with `1 / (v̂ᵀ Q v̂ + modelEpsilon)` and a zero sentinel for zero-norm
model vectors.  The closed-form free-surface polarization formulas and the
eigendecomposition are not given in closed form by either the source tree
or the spec, so the engine is parametric in the model generator `pol` and
the projector builder `project`; every theorem below holds for all of them. -/

/-- Six-component sample / polarization vector over exact rationals. -/
def Vec6 : Type := Fin 6 → ℚ

/-- A 6×6 real matrix over exact rationals. -/
def Mat6 : Type := Fin 6 → Fin 6 → ℚ

/-- Wave type tag selecting the polarization formula set (§3). -/
inductive WaveType : Type where
  | P | SV | SH | Rayleigh | Love
deriving DecidableEq, Repr

/-- Subspace-dimension selector (§4.2): an explicit integer or `auto`. -/
inductive SubspaceSelector : Type where
  | auto : SubspaceSelector
  | explicitDim (l : ℕ) : SubspaceSelector
deriving DecidableEq, Repr

/-- Error taxonomy of the engine (§7). -/
inductive MusicError : Type where
  | InvalidWindow : MusicError
  | DegenerateCoherency : MusicError
deriving DecidableEq, Repr

/-- Squared Euclidean norm of a six-component vector. -/
def normSq6 (v : Vec6) : ℚ := ∑ i, v i ^ 2

/-- The quadratic form `vᵀ Q v`. -/
def quadForm (Q : Mat6) (v : Vec6) : ℚ := ∑ i, ∑ j, v i * Q i j * v j

/-- Modelled from the spec: §4.1, the window of `windowLength` samples
starting at `centerIndex` (the spec fixes the start-or-centered convention
once; starting is used here). -/
def windowOf (data : List Vec6) (centerIndex windowLength : ℕ) : List Vec6 :=
  (data.drop centerIndex).take windowLength

/-- Modelled from the spec: §4.1, the 6×6 cross-channel coherency matrix of
the window, `Dᵗ D` normalized by the window length. -/
def coherency (data : List Vec6) (centerIndex windowLength : ℕ) : Mat6 :=
  fun i j =>
    ((windowOf data centerIndex windowLength).foldl
      (fun acc s => acc + s i * s j) 0) / (windowLength : ℚ)

/-- Modelled from the spec: §4.1, `estimate` fails with `InvalidWindow` when
the requested window exceeds the signal bounds, and otherwise returns the
coherency matrix of the window. -/
def estimate (data : List Vec6) (centerIndex windowLength : ℕ) :
    Except MusicError Mat6 :=
  if centerIndex + windowLength ≤ data.length then
    .ok (coherency data centerIndex windowLength)
  else
    .error .InvalidWindow

/-- Modelled from the spec: §4.4 with the §7 `DegenerateModel` sentinel. The
score of one grid node for raw model vector `v`: zero when `v` has zero
norm, otherwise `1 / (v̂ᵀ Q v̂ + modelEpsilon)` where `v̂ = v / ‖v‖`
(so `v̂ᵀ Q v̂ = vᵀ Q v / ‖v‖²`, exact over ℚ). -/
def nodeScore (Q : Mat6) (modelEps : ℚ) (v : Vec6) : ℚ :=
  if normSq6 v = 0 then 0
  else 1 / (quadForm Q v / normSq6 v + modelEps)

/-- The discretized 4-D parameter grid `test_param` of the drivers. -/
structure TestParam : Type where
  theta : List ℚ
  phi : List ℚ
  vp : List ℚ
  vs : List ℚ

/-- Modelled from the spec: §4.4, the output tensor built by iterating
outer θ, then φ, then α, then β over the grid, one scalar per node. -/
def likelihoodVolume (score : ℚ → ℚ → ℚ → ℚ → ℚ) (tp : TestParam) :
    List (List (List (List ℚ))) :=
  tp.theta.map fun θ =>
    tp.phi.map fun φ =>
      tp.vp.map fun α =>
        tp.vs.map fun β => score θ φ α β

/-- Total accessor for the 4-D nested volume (defaulting out of range). -/
def volAt (V : List (List (List (List ℚ)))) (i j k l : ℕ) : ℚ :=
  (((V.getD i []).getD j []).getD k []).getD l 0

/-- Modelled from the spec: §4.4 `search` / the caller-facing `music6C`.
Parametric in the §4.3 model generator `pol` (wave type, θ, φ, α, β,
scaling velocity ↦ raw six-component vector) and the §4.2 projector
builder `project` (coherency matrix, selector, coherency epsilon ↦ Q).
Computes the coherency matrix and projector once for the window, then
fills the 4-D likelihood tensor and returns it verbatim. -/
def music6C (pol : WaveType → ℚ → ℚ → ℚ → ℚ → ℚ → Vec6)
    (project : Mat6 → SubspaceSelector → ℚ → Mat6)
    (data : List Vec6) (tp : TestParam) (wt : WaveType) (vscal : ℚ)
    (centerIndex windowLength : ℕ) (sel : SubspaceSelector)
    (cohEps modelEps : ℚ) :
    Except MusicError (List (List (List (List ℚ)))) :=
  (estimate data centerIndex windowLength).map fun C =>
    likelihoodVolume
      (fun θ φ α β => nodeScore (project C sel cohEps) modelEps
        (pol wt θ φ α β vscal)) tp

/-! ## P-wave polarization and the drivers' data synthesis

`polvect6C` is not in the source tree.  The spec (§4.3) prescribes for a
P-wave: three translational components and two horizontal rotational
components given by closed-form free-surface expressions, and `a zero
vertical-rotation component for a P-wave (by symmetry)`.  The five
closed forms are asserted by domain reference but not spelled out (§9
open question), so they are abstract coefficient functions here; the
sixth component is fixed to zero as the spec states. -/

/-- The five non-trivial closed-form component functions of the free-surface
P-wave polarization, each a function of (θ, φ, α, β, scalingVelocity). -/
structure FreeSurfaceCoeffs : Type where
  tx : ℝ → ℝ → ℝ → ℝ → ℝ → ℝ
  ty : ℝ → ℝ → ℝ → ℝ → ℝ → ℝ
  tz : ℝ → ℝ → ℝ → ℝ → ℝ → ℝ
  rx : ℝ → ℝ → ℝ → ℝ → ℝ → ℝ
  ry : ℝ → ℝ → ℝ → ℝ → ℝ → ℝ

/-- Modelled from the spec: §4.3, the raw six-component P-wave polarization
vector — translational x/y/z, rotational x/y, and a vertical-rotation
component that is identically zero for a P-wave. -/
def polvect6C_P (c : FreeSurfaceCoeffs) (θ φ α β vscal : ℝ) : Fin 6 → ℝ :=
  ![c.tx θ φ α β vscal, c.ty θ φ α β vscal, c.tz θ φ α β vscal,
    c.rx θ φ α β vscal, c.ry θ φ α β vscal, 0]

/-- `data[0,:].size` in the notebooks: the number of channels, six. -/
def numChannels : ℕ := 6

/-- The drivers' zero-initialized data with the unit polarization vector
written at the arrival rows (`data[indx,:] = v`, `data[indx2,:] = v2`;
the isolated-P driver is the case `i1 = i2`, `v1 = v2`). -/
def sampleData (v1 v2 : Fin 6 → ℝ) (i1 i2 : ℕ) : ℕ → Fin 6 → ℝ :=
  fun t i => if t = i2 then v2 i else if t = i1 then v1 i else 0

/-- The drivers' convolution loop
`for i in range(0, data[0,:].size - 1): data[:,i] = np.convolve(data[:,i], wav, 'same')`:
every channel with index below `numChannels - 1` is replaced by its
convolution with the wavelet, the last channel is left untouched.  The
convolution itself (`np.convolve (·, wav, 'same')`) is the external
wavelet utility, abstracted as `conv`. -/
def convolveChannels (conv : (ℕ → ℝ) → (ℕ → ℝ)) (data : ℕ → Fin 6 → ℝ) :
    ℕ → Fin 6 → ℝ :=
  fun t i => if (i : ℕ) < numChannels - 1 then conv (fun s => data s i) t else data t i

/-! ## The bundled `music6C` call and helper lemmas -/

/-- One full argument tuple of the caller-facing `music6C` entry point
(§4.4/§6), including the two abstract engine sub-modules. -/
structure MusicArgs : Type where
  pol : WaveType → ℚ → ℚ → ℚ → ℚ → ℚ → Vec6
  project : Mat6 → SubspaceSelector → ℚ → Mat6
  data : List Vec6
  tp : TestParam
  wt : WaveType
  vscal : ℚ
  centerIndex : ℕ
  windowLength : ℕ
  sel : SubspaceSelector
  cohEps : ℚ
  modelEps : ℚ

/-- Run the entry point on a bundled argument tuple. -/
def runMusic (a : MusicArgs) : Except MusicError (List (List (List (List ℚ)))) :=
  music6C a.pol a.project a.data a.tp a.wt a.vscal a.centerIndex a.windowLength
    a.sel a.cohEps a.modelEps

/-- `getD` of a mapped list inside the bounds is `f` of `getD`. -/
lemma getD_map {α β : Type} (f : α → β) (l : List α) (i : ℕ)
    (h : i < l.length) (d : β) (d' : α) :
    (l.map f).getD i d = f (l.getD i d') := by
  have h' : i < (l.map f).length := by simpa using h
  rw [List.getD_eq_getElem _ _ h', List.getD_eq_getElem _ _ h, List.getElem_map]

/-- The seed of `List.foldl max` bounds the result from below. -/
lemma le_foldl_max (xs : List ℚ) (a : ℚ) : a ≤ xs.foldl max a := by
  induction xs generalizing a with
  | nil => exact le_refl a
  | cons y ys ih => exact le_trans (le_max_left a y) (ih (max a y))

/-- Every member of the list bounds `List.foldl max` from below. -/
lemma mem_le_foldl_max (xs : List ℚ) (a x : ℚ) (h : x ∈ xs) :
    x ≤ xs.foldl max a := by
  induction xs generalizing a with
  | nil => cases h
  | cons y ys ih =>
    rcases List.mem_cons.mp h with h1 | h1
    · subst h1
      exact le_trans (le_max_right a x) (le_foldl_max ys (max a x))
    · exact ih (max a y) h1

/-- `List.foldl max` yields either the seed or a member of the list. -/
lemma foldl_max_choice (xs : List ℚ) (a : ℚ) :
    xs.foldl max a = a ∨ xs.foldl max a ∈ xs := by
  induction xs generalizing a with
  | nil => exact Or.inl rfl
  | cons y ys ih =>
    have hgoal : (y :: ys).foldl max a = ys.foldl max (max a y) := rfl
    rcases ih (max a y) with h | h
    · rcases max_choice a y with hm | hm
      · exact Or.inl (by rw [hgoal, h, hm])
      · refine Or.inr ?_
        rw [hgoal, h, hm]
        exact List.mem_cons_self y ys
    · exact Or.inr (List.mem_cons_of_mem y h)

/-- `listMax` of a nonempty list is a member of the list. -/
lemma listMax_mem (xs : List ℚ) (h : xs ≠ []) : listMax xs ∈ xs := by
  cases xs with
  | nil => exact absurd rfl h
  | cons x t =>
    have h0 : listMax (x :: t) = t.foldl max x := rfl
    rcases foldl_max_choice t x with h1 | h1
    · rw [h0, h1]
      exact List.mem_cons_self x t
    · rw [h0]
      exact List.mem_cons_of_mem x h1

/-- `listMax` bounds every member of the list from above. -/
lemma le_listMax (xs : List ℚ) (x : ℚ) (h : x ∈ xs) : x ≤ listMax xs := by
  cases xs with
  | nil => cases h
  | cons y t =>
    have h0 : listMax (y :: t) = t.foldl max y := rfl
    rw [h0]
    rcases List.mem_cons.mp h with h1 | h1
    · rw [h1]
      exact le_foldl_max t y
    · exact mem_le_foldl_max t y x h1

/-! ## Concrete objects used by witnesses -/

/-- The all-zero six-component rational vector. -/
def zeroVec6 : Vec6 := fun _ => 0

/-- The all-one six-component rational vector. -/
def onesVec6 : Vec6 := fun _ => 1

/-- The zero 6×6 matrix. -/
def zeroMat6 : Mat6 := fun _ _ => 0

/-- A one-node parameter grid. -/
def tp0 : TestParam := ⟨[10], [20], [300], [170]⟩

/-- A constant polarization model generator. -/
def pol0 : WaveType → ℚ → ℚ → ℚ → ℚ → ℚ → Vec6 := fun _ _ _ _ _ _ => onesVec6

/-- A projector builder returning the coherency matrix itself. -/
def project0 : Mat6 → SubspaceSelector → ℚ → Mat6 := fun C _ _ => C

/-- A two-sample signal. -/
def data0 : List Vec6 := [onesVec6, onesVec6]

/-- A concrete full argument tuple for the entry point. -/
def musicArgs0 : MusicArgs :=
  ⟨pol0, project0, data0, tp0, .P, 340, 0, 1, .auto, 0, 1⟩

/-- The all-one six-component real vector. -/
def vOnes6 : Fin 6 → ℝ := fun _ => 1

/-- The identity stand-in for the external wavelet convolution. -/
def conv0 : (ℕ → ℝ) → (ℕ → ℝ) := fun f => f

/-- The all-zero data array. -/
def dZero : ℕ → Fin 6 → ℝ := fun _ _ => 0

/-- All-zero free-surface coefficient functions. -/
def coeffs0 : FreeSurfaceCoeffs :=
  ⟨fun _ _ _ _ _ => 0, fun _ _ _ _ _ => 0, fun _ _ _ _ _ => 0,
   fun _ _ _ _ _ => 0, fun _ _ _ _ _ => 0⟩

/-! ## Claim theorems -/

/-- C6: in both drivers the scaling velocity passed to the grid search
(`music6C`) is the identical value `v_scal` used to prepare the observed
data through `polvect6C` — `2 * vs = 340` in the isolated-P driver and
`1.2 * vs = 204` in the interfering-P driver; the search is never run with
a scaling velocity different from the one used in data preparation. -/
theorem scaling_velocity_contract :
    Driver1.musicScalingArg = Driver1.polvectScalingArg ∧
    Driver2.musicScalingArg = Driver2.polvectScalingArg ∧
    Driver1.musicScalingArg = 340 ∧ Driver2.musicScalingArg = 204 := by
  refine ⟨rfl, rfl, ?_, ?_⟩ <;>
    norm_num [Driver1.musicScalingArg, Driver1.v_scal, Driver1.vs,
      Driver2.musicScalingArg, Driver2.v_scal, Driver2.vs]

/-- C4: for every raw polarization vector of nonzero Euclidean norm, the
drivers' normalization `v / np.sqrt(sum(v**2))` produces a vector of unit
Euclidean norm (stated exactly over ℝ: the sum of squared components of
`unit6 v` is `1`). -/
theorem unit6_unit_norm (v : Fin 6 → ℝ) (h : (∑ j, v j ^ 2) ≠ 0) :
    ∑ i, unit6 v i ^ 2 = 1 := by
  have hnn : 0 ≤ ∑ j, v j ^ 2 := Finset.sum_nonneg fun j _ => sq_nonneg (v j)
  have hsq : Real.sqrt (∑ j, v j ^ 2) ^ 2 = ∑ j, v j ^ 2 := Real.sq_sqrt hnn
  simp only [unit6, div_pow, ← Finset.sum_div, hsq, div_self h]

/-- Witness for C4 at the all-one vector. -/
theorem unit6_unit_norm_witness :
    (∑ j, vOnes6 j ^ 2) ≠ 0 ∧ ∑ i, unit6 vOnes6 i ^ 2 = 1 := by
  have h : (∑ j, vOnes6 j ^ 2) ≠ 0 := by
    norm_num [vOnes6, Fin.sum_univ_six]
  exact ⟨h, unit6_unit_norm vOnes6 h⟩

/-- C7: the coherency estimation step fails with `InvalidWindow` exactly
when the requested window (the span of `windowLength` samples from
`centerIndex`) exceeds the signal bounds; in particular a window whose
span exceeds the signal length always fails with `InvalidWindow`. -/
theorem estimate_invalid_window :
    (∀ (data : List Vec6) (c w : ℕ),
      estimate data c w = .error .InvalidWindow ↔ data.length < c + w) ∧
    (∀ (data : List Vec6) (c w : ℕ), data.length < w →
      estimate data c w = .error .InvalidWindow) := by
  have key : ∀ (data : List Vec6) (c w : ℕ),
      estimate data c w = .error .InvalidWindow ↔ data.length < c + w := by
    intro data c w
    unfold estimate
    by_cases hle : c + w ≤ data.length
    · rw [if_pos hle]
      simp only [reduceCtorEq, false_iff]
      omega
    · rw [if_neg hle]
      simp only [true_iff]
      omega
  exact ⟨key, fun data c w hw => (key data c w).mpr (by omega)⟩

/-- Witness for C7: a one-sample window on the empty signal fails. -/
theorem estimate_invalid_window_witness :
    ([] : List Vec6).length < 1 ∧ estimate [] 0 1 = .error .InvalidWindow :=
  ⟨by decide, estimate_invalid_window.2 [] 0 1 (by decide)⟩

/-- C8: a grid node whose theoretical polarization vector has zero norm
(the `DegenerateModel` case) is assigned the sentinel likelihood `0`
instead of an error, and the caller cleanup maps that sentinel to the
neutral value `1`. -/
theorem degenerate_model_sentinel (Q : Mat6) (eps : ℚ) (v : Vec6)
    (h : normSq6 v = 0) :
    nodeScore Q eps v = 0 ∧ cleanVal (FVal.fin (nodeScore Q eps v)) = 1 := by
  have h0 : nodeScore Q eps v = 0 := by
    unfold nodeScore
    rw [if_pos h]
  refine ⟨h0, ?_⟩
  rw [h0]
  norm_num [cleanVal, nanToNum]

/-- Witness for C8 at the zero vector and zero matrix. -/
theorem degenerate_model_sentinel_witness :
    normSq6 zeroVec6 = 0 ∧
      (nodeScore zeroMat6 (1 / 100) zeroVec6 = 0 ∧
        cleanVal (FVal.fin (nodeScore zeroMat6 (1 / 100) zeroVec6)) = 1) := by
  have h : normSq6 zeroVec6 = 0 := by
    norm_num [normSq6, zeroVec6, Fin.sum_univ_six]
  exact ⟨h, degenerate_model_sentinel zeroMat6 (1 / 100) zeroVec6 h⟩

/-- C9: the grid search is a deterministic function of its arguments with
no hidden state — two calls with identical data, grid, wave type, scaling
velocity, arrival index, window length, (deterministic) subspace selector,
epsilons and sub-modules yield an identical likelihood volume. -/
theorem music6C_deterministic (a b : MusicArgs)
    (hpol : a.pol = b.pol) (hproj : a.project = b.project)
    (hdata : a.data = b.data) (htp : a.tp = b.tp) (hwt : a.wt = b.wt)
    (hvs : a.vscal = b.vscal) (hc : a.centerIndex = b.centerIndex)
    (hw : a.windowLength = b.windowLength) (hsel : a.sel = b.sel)
    (he1 : a.cohEps = b.cohEps) (he2 : a.modelEps = b.modelEps) :
    runMusic a = runMusic b := by
  unfold runMusic
  rw [hpol, hproj, hdata, htp, hwt, hvs, hc, hw, hsel, he1, he2]

/-- Witness for C9 at a concrete argument tuple. -/
theorem music6C_deterministic_witness :
    musicArgs0.data = musicArgs0.data ∧ musicArgs0.tp = musicArgs0.tp ∧
      runMusic musicArgs0 = runMusic musicArgs0 :=
  ⟨rfl, rfl,
    music6C_deterministic musicArgs0 musicArgs0 rfl rfl rfl rfl rfl rfl rfl
      rfl rfl rfl rfl⟩

/-- C3 counterexample: an entry that is `+inf` in the raw volume is mapped
by the documented cleanup (`np.nan_to_num` then zeros to `1`) to the
largest finite double, not to the neutral value `1`. -/
theorem cleanup_infinite_entry_not_one :
    cleanVal FVal.pinf = maxFloat ∧ cleanVal FVal.pinf ≠ 1 := by
  constructor <;> norm_num [cleanVal, nanToNum, maxFloat]

/-- C3 as amended: after the caller cleanup every entry of the cleaned
volume is a (finite) nonzero rational; every entry that was NaN or zero in
the raw volume equals `1`, while infinite entries become `±maxFloat`. -/
theorem cleanup_neutralizes_nan_and_zero (L : List FVal) (v : FVal) (x : ℚ)
    (hx : x ∈ cleanup L) (hv : v ∈ L) :
    x ≠ 0 ∧ ((v = FVal.nan ∨ v = FVal.fin 0) → cleanVal v = 1) ∧
      cleanVal FVal.pinf = maxFloat ∧ cleanVal FVal.ninf = -maxFloat := by
  refine ⟨?_, ?_, ?_, ?_⟩
  · rcases List.mem_map.mp hx with ⟨y, _, rfl⟩
    unfold cleanVal
    split
    · exact one_ne_zero
    · next h => exact h
  · rintro (rfl | rfl) <;> norm_num [cleanVal, nanToNum]
  · norm_num [cleanVal, nanToNum, maxFloat]
  · norm_num [cleanVal, nanToNum, maxFloat]

/-- Witness for the amended C3 on the one-entry NaN volume. -/
theorem cleanup_neutralizes_nan_and_zero_witness :
    ((1 : ℚ) ∈ cleanup [FVal.nan]) ∧ (FVal.nan ∈ [FVal.nan]) ∧
      ((1 : ℚ) ≠ 0) ∧ cleanVal FVal.nan = 1 := by
  have hx : (1 : ℚ) ∈ cleanup [FVal.nan] := by
    norm_num [cleanup, cleanVal, nanToNum]
  have hv : FVal.nan ∈ [FVal.nan] := List.mem_singleton.mpr rfl
  have h := cleanup_neutralizes_nan_and_zero [FVal.nan] FVal.nan 1 hx hv
  exact ⟨hx, hv, h.1, h.2.1 (Or.inl rfl)⟩

/-- C5: the likelihood volume is indexed in axis order
(θ-grid, φ-grid, α-grid, β-grid): whenever the search succeeds it returns
exactly the tensor built by iterating outer θ, then φ, then α, then β, and
entry `[i][j][k][l]` of that tensor is the node score of the parameter
combination `(theta[i], phi[j], vp[k], vs[l])`. -/
theorem likelihood_volume_index_semantics
    (pol : WaveType → ℚ → ℚ → ℚ → ℚ → ℚ → Vec6)
    (project : Mat6 → SubspaceSelector → ℚ → Mat6)
    (data : List Vec6) (tp : TestParam) (wt : WaveType) (vscal : ℚ)
    (c w : ℕ) (sel : SubspaceSelector) (e1 e2 : ℚ) (i j k l : ℕ)
    (hw : c + w ≤ data.length)
    (hi : i < tp.theta.length) (hj : j < tp.phi.length)
    (hk : k < tp.vp.length) (hl : l < tp.vs.length) :
    music6C pol project data tp wt vscal c w sel e1 e2 =
      .ok (likelihoodVolume
        (fun θ φ α β => nodeScore (project (coherency data c w) sel e1) e2
          (pol wt θ φ α β vscal)) tp) ∧
    volAt (likelihoodVolume
        (fun θ φ α β => nodeScore (project (coherency data c w) sel e1) e2
          (pol wt θ φ α β vscal)) tp) i j k l =
      nodeScore (project (coherency data c w) sel e1) e2
        (pol wt (tp.theta.getD i 0) (tp.phi.getD j 0) (tp.vp.getD k 0)
          (tp.vs.getD l 0) vscal) := by
  constructor
  · unfold music6C estimate
    rw [if_pos hw]
    rfl
  · unfold volAt likelihoodVolume
    rw [getD_map _ _ i hi _ (0 : ℚ), getD_map _ _ j hj _ (0 : ℚ),
      getD_map _ _ k hk _ (0 : ℚ), getD_map _ _ l hl _ (0 : ℚ)]

/-- Witness for C5 on a one-node grid and a two-sample signal. -/
theorem likelihood_volume_index_semantics_witness :
    (0 + 1 ≤ data0.length ∧ 0 < tp0.theta.length ∧ 0 < tp0.phi.length ∧
      0 < tp0.vp.length ∧ 0 < tp0.vs.length) ∧
    (music6C pol0 project0 data0 tp0 .P 340 0 1 .auto 0 1 =
      .ok (likelihoodVolume
        (fun θ φ α β => nodeScore (project0 (coherency data0 0 1) .auto 0) 1
          (pol0 .P θ φ α β 340)) tp0) ∧
    volAt (likelihoodVolume
        (fun θ φ α β => nodeScore (project0 (coherency data0 0 1) .auto 0) 1
          (pol0 .P θ φ α β 340)) tp0) 0 0 0 0 =
      nodeScore (project0 (coherency data0 0 1) .auto 0) 1
        (pol0 .P (tp0.theta.getD 0 0) (tp0.phi.getD 0 0) (tp0.vp.getD 0 0)
          (tp0.vs.getD 0 0) 340)) :=
  ⟨⟨by decide, by decide, by decide, by decide, by decide⟩,
    likelihood_volume_index_semantics pol0 project0 data0 tp0 .P 340 0 1
      .auto 0 1 0 0 0 0 (by decide) (by decide) (by decide) (by decide)
      (by decide)⟩

/-- C2 counterexample: the flat argmax the drivers actually consume is
computed by the caller from the cleaned volume and differs, on the raw
volume `[0, 1/2]`, from the flattened global argmax of the output as
returned (the §6 convenience value): the driver index is `0`, the
convenience index would be `1`, so the indices the drivers use cannot be
an argmax returned by the entry point alongside the tensor. -/
theorem driver_argmax_disagrees_with_convenience :
    driverArgmaxFlat [FVal.fin 0, FVal.fin (1 / 2)] = 0 ∧
    specConvenienceArgmax [FVal.fin 0, FVal.fin (1 / 2)] = 1 := by
  constructor
  · show ((cleanup [FVal.fin 0, FVal.fin (1 / 2)]).map abs).indexOf
      (driverMaxval [FVal.fin 0, FVal.fin (1 / 2)]) = 0
    norm_num [cleanup, cleanVal, nanToNum, driverMaxval, listMax,
      List.indexOf, List.findIdx, List.findIdx.go, abs]
  · show (([FVal.fin 0, FVal.fin (1 / 2)].map nanToNum).map abs).indexOf
      (listMax (([FVal.fin 0, FVal.fin (1 / 2)].map nanToNum).map abs)) = 1
    norm_num [nanToNum, listMax, List.indexOf, List.findIdx,
      List.findIdx.go, abs, beq_iff_eq]
    rw [show ((0 : ℚ) == 1 / 2) = false from
      beq_eq_false_iff_ne.mpr (by norm_num)]
    rfl

/-- C2 as amended: the entry point returns only the 4-D likelihood tensor,
verbatim; the flattened global argmax index and value are extracted by the
caller from the cleaned volume, and that extraction is correct — the
driver's `maxidx` points at an entry of the cleaned absolute volume whose
value is the driver's `maxval`, which bounds every entry. -/
theorem music6C_verbatim_caller_argmax :
    (∀ (pol : WaveType → ℚ → ℚ → ℚ → ℚ → ℚ → Vec6)
      (project : Mat6 → SubspaceSelector → ℚ → Mat6)
      (data : List Vec6) (tp : TestParam) (wt : WaveType) (vscal : ℚ)
      (c w : ℕ) (sel : SubspaceSelector) (e1 e2 : ℚ),
      c + w ≤ data.length →
      music6C pol project data tp wt vscal c w sel e1 e2 =
        .ok (likelihoodVolume
          (fun θ φ α β => nodeScore (project (coherency data c w) sel e1) e2
            (pol wt θ φ α β vscal)) tp)) ∧
    (∀ L : List FVal, L ≠ [] →
      ((cleanup L).map abs)[driverArgmaxFlat L]? = some (driverMaxval L) ∧
      ∀ x ∈ (cleanup L).map abs, x ≤ driverMaxval L) := by
  constructor
  · intro pol project data tp wt vscal c w sel e1 e2 hw
    unfold music6C estimate
    rw [if_pos hw]
    rfl
  · intro L hL
    have hne : (cleanup L).map abs ≠ [] := by
      simp only [ne_eq, List.map_eq_nil_iff, cleanup]
      exact hL
    have hmem : driverMaxval L ∈ (cleanup L).map abs := listMax_mem _ hne
    refine ⟨?_, ?_⟩
    · unfold driverArgmaxFlat
      exact List.getElem?_indexOf hmem
    · intro x hx
      exact le_listMax _ x hx

/-- Witness for the amended C2 on a one-node search and a one-entry volume. -/
theorem music6C_verbatim_caller_argmax_witness :
    (0 + 1 ≤ data0.length) ∧ ([FVal.nan] ≠ ([] : List FVal)) ∧
    (music6C pol0 project0 data0 tp0 .P 340 0 1 .auto 0 1 =
      .ok (likelihoodVolume
        (fun θ φ α β => nodeScore (project0 (coherency data0 0 1) .auto 0) 1
          (pol0 .P θ φ α β 340)) tp0)) ∧
    (((cleanup [FVal.nan]).map abs)[driverArgmaxFlat [FVal.nan]]? =
      some (driverMaxval [FVal.nan])) ∧
    ((1 : ℚ) ∈ (cleanup [FVal.nan]).map abs) ∧
    ((1 : ℚ) ≤ driverMaxval [FVal.nan]) := by
  have hmem : (1 : ℚ) ∈ (cleanup [FVal.nan]).map abs := by
    norm_num [cleanup, cleanVal, nanToNum, abs]
  refine ⟨by decide, by decide, ?_, ?_, hmem, ?_⟩
  · exact music6C_verbatim_caller_argmax.1 pol0 project0 data0 tp0 .P 340 0 1
      .auto 0 1 (by decide)
  · exact (music6C_verbatim_caller_argmax.2 [FVal.nan] (by decide)).1
  · exact (music6C_verbatim_caller_argmax.2 [FVal.nan] (by decide)).2 1 hmem

/-- C10: the drivers' wavelet-convolution loop runs over channel indices
`0` through `numChannels - 2` only (`range(0, data[0,:].size - 1)`), so
the sixth channel (vertical rotation) is left unchanged by the convolution
step while the first five channels are convolved; and since the P-wave
polarization has zero sixth component, that channel of the synthesized
data is identically zero immediately before noise injection. -/
theorem vertical_rotation_channel_untouched
    (conv : (ℕ → ℝ) → (ℕ → ℝ)) (cf : FreeSurfaceCoeffs)
    (θ φ θ2 φ2 α β vscal : ℝ) (i1 i2 : ℕ) :
    (∀ (d : ℕ → Fin 6 → ℝ) (t : ℕ), convolveChannels conv d t 5 = d t 5) ∧
    (∀ t : ℕ,
      convolveChannels conv
        (sampleData (unit6 (polvect6C_P cf θ φ α β vscal))
          (unit6 (polvect6C_P cf θ2 φ2 α β vscal)) i1 i2) t 5 = 0) ∧
    (∀ (d : ℕ → Fin 6 → ℝ) (t : ℕ) (ch : Fin 6), (ch : ℕ) < numChannels - 1 →
      convolveChannels conv d t ch = conv (fun s => d s ch) t) := by
  have huntouched : ∀ (d : ℕ → Fin 6 → ℝ) (t : ℕ),
      convolveChannels conv d t 5 = d t 5 := by
    intro d t
    unfold convolveChannels numChannels
    rw [if_neg (by decide)]
  have hzero : ∀ t : ℕ,
      sampleData (unit6 (polvect6C_P cf θ φ α β vscal))
        (unit6 (polvect6C_P cf θ2 φ2 α β vscal)) i1 i2 t 5 = 0 := by
    intro t
    have h1 : polvect6C_P cf θ φ α β vscal 5 = 0 := rfl
    have h2 : polvect6C_P cf θ2 φ2 α β vscal 5 = 0 := rfl
    have hu1 : unit6 (polvect6C_P cf θ φ α β vscal) 5 = 0 := by
      unfold unit6
      rw [h1, zero_div]
    have hu2 : unit6 (polvect6C_P cf θ2 φ2 α β vscal) 5 = 0 := by
      unfold unit6
      rw [h2, zero_div]
    unfold sampleData
    split_ifs <;> simp [hu1, hu2]
  refine ⟨huntouched, ?_, ?_⟩
  · intro t
    rw [huntouched, hzero]
  · intro d t ch hch
    unfold convolveChannels
    rw [if_pos hch]

/-- Witness for C10 at concrete coefficients, angles and arrival indices. -/
theorem vertical_rotation_channel_untouched_witness :
    ((0 : Fin 6) : ℕ) < numChannels - 1 ∧
    convolveChannels conv0 dZero 0 5 = dZero 0 5 ∧
    convolveChannels conv0
      (sampleData (unit6 (polvect6C_P coeffs0 0 0 0 0 0))
        (unit6 (polvect6C_P coeffs0 0 0 0 0 0)) 0 1) 0 5 = 0 ∧
    convolveChannels conv0 dZero 0 0 = conv0 (fun s => dZero s 0) 0 :=
  ⟨by decide,
    (vertical_rotation_channel_untouched conv0 coeffs0 0 0 0 0 0 0 0 0 1).1
      dZero 0,
    (vertical_rotation_channel_untouched conv0 coeffs0 0 0 0 0 0 0 0 0 1).2.1 0,
    (vertical_rotation_channel_untouched conv0 coeffs0 0 0 0 0 0 0 0 0 1).2.2
      dZero 0 0 (by decide)⟩
